import Mathlib

/-!
Verification development for the Monad dispute-analysis backend.

The JavaScript sources are shallowly embedded in Lean:

* pure control flow is translated function by function;
* calls into the ethers decoding library (`Interface.parseLog`,
  `ethers.getAddress`) are modelled as oracle parameters of type
  `RawLog → DecodeResult` resp. `String → Option String`, representing
  the outcome of the library call on each input (a successfully decoded
  event, the null result for an unknown topic, or a thrown error);
* network calls (provider, explorer APIs, the AI endpoint) are modelled
  by an environment record holding the outcome of each call as an
  `Except`/`Option` value;
* the Redis cache is modelled as a key-value store with absolute expiry
  times; ABI documents are identified with their JSON serialization, so
  the stringify/parse round-trip performed by the code is the identity.

Sections follow the source files:
  blockchain.js  (BlockchainService: parseLogs, analyzeTransactionPattern,
                  getContractState, analyzeTransaction)
  abiFetcher.js  (ABIFetcher: fetchFromMonadScan, fetchFromMonadExplorer,
                  fetchABI, cacheABI, getCachedABI, parseLogsWithABI)
  aiService.js   (AIService.analyzeDispute)
  disputeController.js (analyzeTransaction controller)
-/

/-- Substring test on lists of characters: does `pat` occur as a prefix
of `s`?  Models JavaScript `String.prototype.includes` together with
`auxContains` below. -/
def listIsPrefix : List Char → List Char → Bool
  | [], _ => true
  | _ :: _, [] => false
  | a :: as, b :: bs => a = b && listIsPrefix as bs

/-- Does `pat` occur as a contiguous sublist of `s`? -/
def auxContains (pat : List Char) : List Char → Bool
  | [] => listIsPrefix pat []
  | c :: rest => listIsPrefix pat (c :: rest) || auxContains pat rest

/-- JavaScript `s.includes(pat)`. -/
def containsSub (s pat : String) : Bool :=
  auxContains pat.data s.data

/-- JavaScript `s.toLowerCase()`, character by character. -/
def strToLower (s : String) : String := ⟨s.data.map Char.toLower⟩

/-- JavaScript `s.slice(n)`: drop the first `n` code units. -/
def strDrop (s : String) (n : Nat) : String := ⟨s.data.drop n⟩

/-- JavaScript `Set.prototype.add`: insertion-ordered, deduplicating. -/
def addToSet (s : List String) (a : String) : List String :=
  if s.contains a then s else s ++ [a]

/-- A raw event log as found in a transaction receipt
(spec data model RawLog; fields as used by blockchain.js). -/
structure RawLog where
  address : String
  topics : List String
  data : String
  logIndex : Nat
  blockNumber : Nat
deriving DecidableEq

/-- Outcome of `Interface.parseLog(log)` in ethers: a decoded event with
its name and stringified arguments, the `null` result (no matching
fragment), or a thrown decode error carrying a message. -/
inductive DecodeResult where
  | ok (name : String) (args : List String)
  | nullRes
  | err (msg : String)
deriving DecidableEq

/-- A transfer record pushed by `BlockchainService.parseLogs`
(blockchain.js lines 134-141 and 178-185).  ERC-20 matches carry
`value`, ERC-721 matches carry `tokenId`; the JS objects simply omit
the other field, modelled here by `Option`. -/
structure StdTransfer where
  type : String
  fromAddr : String
  toAddr : String
  value : Option String
  tokenId : Option String
  logIndex : Nat
  blockNumber : Nat
deriving DecidableEq

/-- A deposit record (blockchain.js lines 151-157). -/
structure DepositRec where
  type : String
  fromAddr : String
  value : String
  logIndex : Nat
  blockNumber : Nat
deriving DecidableEq

/-- A raw unmatched event record (blockchain.js lines 199-206). -/
structure RawEventRec where
  type : String
  topics : List String
  data : String
  logIndex : Nat
  blockNumber : Nat
  address : String
deriving DecidableEq

/-- The accumulator of `BlockchainService.parseLogs`
(blockchain.js lines 111-118); the JS `Set`s become insertion-ordered
deduplicated lists, matching the final `Array.from` conversion. -/
structure ParsedLogsStd where
  transfers : List StdTransfer
  deposits : List DepositRec
  otherEvents : List RawEventRec
  contractType : String
  senderAddresses : List String
  receiverAddresses : List String
deriving DecidableEq

/-- Initial accumulator of parseLogs. -/
def ParsedLogsStd.init : ParsedLogsStd :=
  { transfers := [], deposits := [], otherEvents := []
  , contractType := "Unknown", senderAddresses := [], receiverAddresses := [] }

/-- The raw-event record built for an unmatched log
(blockchain.js lines 199-206). -/
def rawEventOf (log : RawLog) : RawEventRec :=
  { type := "Unknown Event", topics := log.topics, data := log.data
  , logIndex := log.logIndex, blockNumber := log.blockNumber
  , address := log.address }

/-- One iteration of the topic loop (blockchain.js lines 209-223): a
topic at position `i` of raw string length 66 is interpreted as a
padded address; `gA` models `ethers.getAddress` (returns `none` when
it throws on a non-address).  Only positions 1 and 2 update the
sender resp. receiver sets. -/
def applyTopic (gA : String → Option String) (i : Nat) (t : String)
    (st : ParsedLogsStd) : ParsedLogsStd :=
  if t.length = 66 then
    match gA ("0x" ++ strDrop t 26) with
    | some a =>
        if i = 1 then { st with senderAddresses := addToSet st.senderAddresses a }
        else if i = 2 then { st with receiverAddresses := addToSet st.receiverAddresses a }
        else st
    | none => st
  else st

/-- The topic loop `for (let i = 1; i < log.topics.length; i++)`
(blockchain.js lines 209-223), as a recursion over the tail of the
topic list with its running index. -/
def topicLoop (gA : String → Option String) (i : Nat) :
    List String → ParsedLogsStd → ParsedLogsStd
  | [], st => st
  | t :: rest, st => topicLoop gA (i + 1) rest (applyTopic gA i t st)

/-- The unmatched-log branch of parseLogs (blockchain.js lines 198-226):
run the address-guess topic loop, then append the raw event record. -/
def parseLogFallback (gA : String → Option String) (st : ParsedLogsStd)
    (log : RawLog) : ParsedLogsStd :=
  let st1 := topicLoop gA 1 (log.topics.drop 1) st
  { st1 with otherEvents := st1.otherEvents ++ [rawEventOf log] }

/-- The ERC-721 attempt of parseLogs (blockchain.js lines 168-195),
reached only when the ERC-20 attempt produced no match.  A decoded
"Transfer" with at least three arguments is pushed as an
"ERC721 Transfer" record; any other outcome — including a decoded
"Transfer" with too few arguments, whose argument access throws in
the JS and is caught — falls through to the raw-event branch. -/
def erc721Step (e721 : RawLog → DecodeResult) (gA : String → Option String)
    (st : ParsedLogsStd) (log : RawLog) : ParsedLogsStd :=
  match e721 log with
  | .ok "Transfer" (f :: t :: tok :: _) =>
      { st with
        transfers := st.transfers ++
          [{ type := "ERC721 Transfer", fromAddr := f, toAddr := t
           , value := none, tokenId := some tok
           , logIndex := log.logIndex, blockNumber := log.blockNumber }]
        senderAddresses := addToSet st.senderAddresses f
        receiverAddresses := addToSet st.receiverAddresses t
        contractType := "ERC721" }
  | _ => parseLogFallback gA st log

/-- One iteration of the log loop of `BlockchainService.parseLogs`
(blockchain.js lines 121-227).  `e20` and `e721` are the decode
oracles for the two built-in interfaces.  A decoded ERC-20 "Transfer"
with at least three arguments, or "Deposit" with at least two, wins;
otherwise — a null result, a thrown decode error, another event name,
or too few arguments (the argument access throws and is caught) —
the ERC-721 interface is attempted. -/
def parseLogStep (e20 e721 : RawLog → DecodeResult)
    (gA : String → Option String) (st : ParsedLogsStd) (log : RawLog) :
    ParsedLogsStd :=
  match e20 log with
  | .ok "Transfer" (f :: t :: v :: _) =>
      { st with
        transfers := st.transfers ++
          [{ type := "ERC20 Transfer", fromAddr := f, toAddr := t
           , value := some v, tokenId := none
           , logIndex := log.logIndex, blockNumber := log.blockNumber }]
        senderAddresses := addToSet st.senderAddresses f
        receiverAddresses := addToSet st.receiverAddresses t
        contractType := "ERC20" }
  | .ok "Deposit" (f :: v :: _) =>
      { st with
        deposits := st.deposits ++
          [{ type := "Deposit", fromAddr := f, value := v
           , logIndex := log.logIndex, blockNumber := log.blockNumber }]
        senderAddresses := addToSet st.senderAddresses f
        contractType := "ERC20" }
  | _ => erc721Step e721 gA st log

/-- `BlockchainService.parseLogs` (blockchain.js lines 110-238): a left
fold of the per-log step over the logs of the receipt.  The body never
throws (every inner attempt is caught), so the outer try/catch of the
source is dead and the fold is total. -/
def parseLogs (e20 e721 : RawLog → DecodeResult)
    (gA : String → Option String) (logs : List RawLog) : ParsedLogsStd :=
  logs.foldl (parseLogStep e20 e721 gA) ParsedLogsStd.init

/-- An entry of the flat `parsedEvents` list of
`ABIFetcher.parseLogsWithABI` (abiFetcher.js lines 177-181 and
218-223): either a decoded event, or the "Unknown" placeholder
carrying the decode error message. -/
structure AbiEvent where
  name : String
  args : List String
  logIndex : Nat
  error : Option String
deriving DecidableEq

/-- A transfer record on the custom-ABI path
(abiFetcher.js lines 204-210); argument accesses use optional
chaining, so a missing argument yields an absent field. -/
structure AbiTransfer where
  type : String
  fromAddr : Option String
  toAddr : Option String
  amount : Option String
  logIndex : Nat
deriving DecidableEq

/-- A failed-transfer record on the custom-ABI path
(abiFetcher.js lines 186-193). -/
structure AbiFailure where
  type : String
  fromAddr : Option String
  toAddr : Option String
  amount : Option String
  reason : Option String
  logIndex : Nat
deriving DecidableEq

/-- A partial-transfer record on the custom-ABI path
(abiFetcher.js lines 195-202). -/
structure AbiPartial where
  type : String
  fromAddr : Option String
  toAddr : Option String
  requested : Option String
  sent : Option String
  logIndex : Nat
deriving DecidableEq

/-- The accumulator of `ABIFetcher.parseLogsWithABI`
(abiFetcher.js lines 160-167).  Note the field list: the custom-ABI
result has no `deposits` and no `otherEvents` category; `contractInfo`
is initialized empty and never written, so it is omitted here. -/
structure ParsedLogsAbi where
  transfers : List AbiTransfer
  failures : List AbiFailure
  partialTransfers : List AbiPartial
  contractType : String
  parsedEvents : List AbiEvent
deriving DecidableEq

/-- Initial accumulator of parseLogsWithABI. -/
def ParsedLogsAbi.init : ParsedLogsAbi :=
  { transfers := [], failures := [], partialTransfers := []
  , contractType := "Custom", parsedEvents := [] }

/-- One iteration of the log loop of `ABIFetcher.parseLogsWithABI`
(abiFetcher.js lines 172-225), with `d` the decode oracle for the
custom interface.  A decoded event is categorized by name pattern and
always appended to the flat `parsedEvents` list; a null decode result
appends nothing anywhere; a thrown decode error appends the "Unknown"
placeholder. -/
def abiStep (d : RawLog → DecodeResult) (st : ParsedLogsAbi)
    (log : RawLog) : ParsedLogsAbi :=
  match d log with
  | .ok name args =>
      let ev : AbiEvent :=
        { name := name, args := args, logIndex := log.logIndex, error := none }
      let st1 :=
        if containsSub (strToLower name) "transfer" then
          if containsSub (strToLower name) "failed" then
            { st with failures := st.failures ++
                [{ type := name, fromAddr := args.get? 0, toAddr := args.get? 1
                 , amount := args.get? 2, reason := args.get? 3
                 , logIndex := log.logIndex }] }
          else if containsSub (strToLower name) "partial" then
            { st with partialTransfers := st.partialTransfers ++
                [{ type := name, fromAddr := args.get? 0, toAddr := args.get? 1
                 , requested := args.get? 2, sent := args.get? 3
                 , logIndex := log.logIndex }] }
          else
            { st with transfers := st.transfers ++
                [{ type := name, fromAddr := args.get? 0, toAddr := args.get? 1
                 , amount := args.get? 2, logIndex := log.logIndex }] }
        else st
      { st1 with parsedEvents := st1.parsedEvents ++ [ev] }
  | .nullRes => st
  | .err m =>
      { st with parsedEvents := st.parsedEvents ++
          [{ name := "Unknown", args := [], logIndex := log.logIndex
           , error := some m }] }

/-- `ABIFetcher.parseLogsWithABI` (abiFetcher.js lines 158-231).  The
parameter models `new ethers.Interface(abi)`: `none` when the
interface constructor throws — the outer catch then returns the
initial accumulator — and otherwise the decode oracle for that
interface. -/
def parseLogsWithABI (iface : Option (RawLog → DecodeResult))
    (logs : List RawLog) : ParsedLogsAbi :=
  match iface with
  | none => ParsedLogsAbi.init
  | some d => logs.foldl (abiStep d) ParsedLogsAbi.init

/-- The transaction fields consumed by the embedded code
(ethers transaction response; `data` is the calldata hex string,
`""` standing for a JS falsy/empty payload and "0x" the empty-calldata
sentinel). -/
structure Tx where
  toAddr : Option String
  fromAddr : String
  value : Nat
  data : String
  gasPrice : Nat
  nonce : Nat
deriving DecidableEq

/-- The receipt fields consumed by the embedded code; `status` is the
numeric status code, absent when the node reports none. -/
structure Receipt where
  status : Option Nat
  blockNumber : Nat
  gasUsed : Nat
  logs : List RawLog
deriving DecidableEq

/-- The block fields consumed by the embedded code. -/
structure Block where
  timestamp : Nat
deriving DecidableEq

/-- The result object of `BlockchainService.analyzeTransactionPattern`
(blockchain.js lines 295-304). -/
structure Analysis where
  type : String
  success : Bool
  hasTransfers : Bool
  hasDeposits : Bool
  contractType : String
  senderCount : Nat
  receiverCount : Nat
  totalEvents : Nat
deriving DecidableEq

/-- `BlockchainService.analyzeTransactionPattern`
(blockchain.js lines 294-317).  The JS builds the record with type
"unknown" and then overwrites `type` through an if/else-if cascade;
the JS test on `transaction.data` (truthy and not the "0x" sentinel) is an emptiness test
followed by the sentinel test. -/
def analyzeTransactionPattern (tx : Tx) (rc : Receipt)
    (pl : ParsedLogsStd) : Analysis :=
  let analysis : Analysis :=
    { type := "unknown"
    , success := rc.status == some 1
    , hasTransfers := pl.transfers.length > 0
    , hasDeposits := pl.deposits.length > 0
    , contractType := pl.contractType
    , senderCount := pl.senderAddresses.length
    , receiverCount := pl.receiverAddresses.length
    , totalEvents := pl.transfers.length + pl.deposits.length + pl.otherEvents.length }
  if pl.transfers.length > 0 then { analysis with type := "transfer" }
  else if pl.deposits.length > 0 then { analysis with type := "deposit" }
  else if tx.data ≠ "" ∧ tx.data ≠ "0x" then { analysis with type := "contract_call" }
  else if tx.value > 0 then { analysis with type := "eth_transfer" }
  else analysis

deriving instance DecidableEq for Except

/-- Outcomes of the four read-only contract calls attempted by
`BlockchainService.getContractState` (blockchain.js lines 243-289),
plus a flag for the contract-object construction itself; an `error`
models a thrown/reverted call.  Each call is caught independently. -/
structure StateEnv where
  contractOk : Bool
  balanceOf : Except Unit String
  symbol : Except Unit String
  tokenName : Except Unit String
  decimals : Except Unit Nat
deriving DecidableEq

/-- The contractInfo object filled by getContractState. -/
structure ContractInfo where
  symbol : Option String
  tokenName : Option String
  decimals : Option Nat
deriving DecidableEq

/-- The result of getContractState. -/
structure ContractState where
  balances : List (String × String)
  contractInfo : ContractInfo
deriving DecidableEq

/-- `BlockchainService.getContractState` (blockchain.js lines 243-289):
every lookup is attempted independently and a failure degrades that
single field to absent; a failed contract construction leaves the
whole structure empty.  The function never raises. -/
def getContractState (env : StateEnv) (senderAddress : Option String) :
    ContractState :=
  if env.contractOk then
    { balances :=
        match senderAddress with
        | some s =>
            match env.balanceOf with
            | .ok v => [(s, v)]
            | .error _ => []
        | none => []
    , contractInfo :=
        { symbol := env.symbol.toOption
        , tokenName := env.tokenName.toOption
        , decimals := env.decimals.toOption } }
  else { balances := [], contractInfo := { symbol := none, tokenName := none, decimals := none } }

/-- The transaction view assembled by
`BlockchainService.analyzeTransaction` (blockchain.js lines 84-95);
`blockTime` carries the block timestamp when the block resolved. -/
structure TxView where
  hash : String
  blockNumber : Nat
  blockTime : Option Nat
  fromAddr : String
  toAddr : Option String
  value : Nat
  gasUsed : Nat
  status : String
  gasPrice : Nat
  nonce : Nat
deriving DecidableEq

/-- The full result of `BlockchainService.analyzeTransaction`. -/
structure SvcResult where
  transaction : TxView
  events : ParsedLogsStd
  contractState : ContractState
  analysis : Analysis
deriving DecidableEq

/-- Environment for one analyze request: the outcome of every external
interaction.  Provider calls carry an error message when the network
call throws, `Option` when it resolves (absent = not found).  `aiResp`
is the AI endpoint outcome: the `choices` message contents on HTTP
success (`none` inner value = response without a choices array), an
error on a network failure. -/
structure Env where
  tx : Except String (Option Tx)
  receipt : Except String (Option Receipt)
  block : Except String (Option Block)
  state : StateEnv
  e20 : RawLog → DecodeResult
  e721 : RawLog → DecodeResult
  getAddr : String → Option String
  aiKey : Option String
  aiResp : Except Unit (Option (List String))

/-- `BlockchainService.analyzeTransaction` (blockchain.js lines 60-105):
missing transaction and missing receipt throw their fixed messages;
provider network errors propagate; the block fetch result (even
absent) degrades only `blockTime`; parseLogs and getContractState are
total.  The catch at lines 101-104 logs and rethrows, so errors pass
through unchanged. -/
def svcAnalyzeTransaction (env : Env) (txHash : String) : Except String SvcResult :=
  match env.tx with
  | .error m => .error m
  | .ok none => .error "Transaction not found"
  | .ok (some tx) =>
    match env.receipt with
    | .error m => .error m
    | .ok none => .error "Transaction receipt not found"
    | .ok (some rc) =>
      match env.block with
      | .error m => .error m
      | .ok blk =>
        let pl := parseLogs env.e20 env.e721 env.getAddr rc.logs
        let cs := getContractState env.state (some tx.fromAddr)
        .ok
          { transaction :=
              { hash := txHash
              , blockNumber := rc.blockNumber
              , blockTime := blk.map (fun b => b.timestamp)
              , fromAddr := tx.fromAddr
              , toAddr := tx.toAddr
              , value := tx.value
              , gasUsed := rc.gasUsed
              , status := if rc.status == some 1 then "success" else "failed"
              , gasPrice := tx.gasPrice
              , nonce := tx.nonce }
          , events := pl
          , contractState := cs
          , analysis := analyzeTransactionPattern tx rc pl }

/-- `AIService.analyzeDispute` (aiService.js lines 13-54): a missing
API key, a network failure, and a response without `choices[0]` all
throw inside the try block; the catch collapses every failure into
one fixed outward error message. -/
def analyzeDispute (apiKey : Option String)
    (resp : Except Unit (Option (List String))) : Except String String :=
  match apiKey with
  | none => .error "AI service temporarily unavailable"
  | some _ =>
    match resp with
    | .error _ => .error "AI service temporarily unavailable"
    | .ok data =>
      match data with
      | some (c :: _) => .ok c
      | _ => .error "AI service temporarily unavailable"

/-- The request body of POST /analyze (disputeController.js line 11). -/
structure Request where
  txHash : Option String
  contractAddress : Option String
  disputeDescription : Option String
deriving DecidableEq

/-- An HTTP response as produced by the controller: status code,
success flag, error message, and — on success — the data payload
(the service result together with the optional AI analysis). -/
structure HttpResponse where
  status : Nat
  success : Bool
  error : Option String
  payload : Option (SvcResult × Option String)
deriving DecidableEq

/-- The catch block of the controller (disputeController.js lines
80-101): a message containing "Transaction not found" maps to 404, a
message containing "AI service" maps to 503 carrying the message,
anything else to 500. -/
def mapControllerError (m : String) : HttpResponse :=
  if containsSub m "Transaction not found" then
    { status := 404, success := false, error := some "Transaction not found", payload := none }
  else if containsSub m "AI service" then
    { status := 503, success := false, error := some m, payload := none }
  else
    { status := 500, success := false, error := some "Internal server error", payload := none }

/-- The analyzeTransaction controller (disputeController.js lines
8-102): requires txHash (400 otherwise); when no contract address is
supplied it pre-fetches the transaction to use its `to` field (404 on
absent transaction, 500 on a thrown provider call); runs the service
analysis; runs the AI adjudication only when a dispute description is
present; maps thrown errors through the catch block. -/
def analyzeTransactionController (env : Env) (req : Request) : HttpResponse :=
  match req.txHash with
  | none =>
    { status := 400, success := false
    , error := some "Transaction hash is required", payload := none }
  | some txHash =>
    let pre : Except HttpResponse Unit :=
      match req.contractAddress with
      | some _ => .ok ()
      | none =>
        match env.tx with
        | .error _ =>
          .error { status := 500, success := false
                 , error := some "Failed to fetch contract address from transaction"
                 , payload := none }
        | .ok none =>
          .error { status := 404, success := false
                 , error := some "Transaction not found", payload := none }
        | .ok (some _) => .ok ()
    match pre with
    | .error resp => resp
    | .ok _ =>
      match svcAnalyzeTransaction env txHash with
      | .error m => mapControllerError m
      | .ok result =>
        match req.disputeDescription with
        | none =>
          { status := 200, success := true, error := none
          , payload := some (result, none) }
        | some _ =>
          match analyzeDispute env.aiKey env.aiResp with
          | .error m => mapControllerError m
          | .ok ai =>
            { status := 200, success := true, error := none
            , payload := some (result, some ai) }

/-- An ABI document, identified with its JSON serialization (the code
only ever moves ABIs through JSON.stringify/JSON.parse, which is the
identity on the document). -/
abbrev Abi := String

/-- Outcome of the axios call in `ABIFetcher.fetchFromMonadScan`
(abiFetcher.js lines 25-33): an HTTP response with the `status` and
`result` fields of the explorer, or a thrown network error. -/
inductive ScanOutcome where
  | resp (status : String) (result : String)
  | netErr
deriving DecidableEq

/-- Environment of one `fetchABI` call: the cached value for the
address, the MonadScan response, a JSON.parse oracle for the scan
result string (`none` models a parse throw or a null-ish document),
and the MonadExplorer outcome (`Except` error = network failure,
inner `none` = response without an `abi` field). -/
structure AbiEnv where
  cached : Option Abi
  scan : ScanOutcome
  scanParse : String → Option Abi
  explorer : Except Unit (Option Abi)

/-- `ABIFetcher.fetchFromMonadScan` (abiFetcher.js lines 23-44): a
status "1" response whose result is not the "Contract source code not
verified" sentinel is JSON-parsed; every other outcome — network
error, other status, the sentinel, or a parse throw — yields null. -/
def fetchFromMonadScan (env : AbiEnv) : Option Abi :=
  match env.scan with
  | .netErr => none
  | .resp status result =>
    if status = "1" ∧ result ≠ "Contract source code not verified" then
      env.scanParse result
    else none

/-- `ABIFetcher.fetchFromMonadExplorer` (abiFetcher.js lines 77-95):
returns the `abi` field of the response when present, null on a missing
field or a thrown network error. -/
def fetchFromMonadExplorer (env : AbiEnv) : Option Abi :=
  match env.explorer with
  | .ok (some a) => some a
  | _ => none

/-- `ABIFetcher.fetchABI` (abiFetcher.js lines 100-122), instrumented
with its effects: the returned ABI, the ordered list of external
sources actually queried, and the cache write performed (ABI and TTL
in seconds), if any. -/
def fetchABI (env : AbiEnv) : Option Abi × List String × Option (Abi × Nat) :=
  match env.cached with
  | some a => (some a, [], none)
  | none =>
    match fetchFromMonadScan env with
    | some a => (some a, ["monadscan"], some (a, 86400))
    | none =>
      match fetchFromMonadExplorer env with
      | some a => (some a, ["monadscan", "monadexplorer"], some (a, 86400))
      | none => (none, ["monadscan", "monadexplorer"], none)

/-- The Redis store backing the ABI cache: a map from key to stored
document and absolute expiry time (seconds). -/
def AbiStore := String → Option (Abi × Nat)

/-- The cache key of abiFetcher.js lines 131 and 146. -/
def abiKey (contractAddress : String) : String :=
  "abi:" ++ strToLower contractAddress

/-- `ABIFetcher.cacheABI` (abiFetcher.js lines 127-137): a no-op
without a Redis client; otherwise `setEx` with a 24-hour TTL under
the lower-cased key. -/
def cacheABI (hasClient : Bool) (st : AbiStore) (now : Nat)
    (contractAddress : String) (abi : Abi) : AbiStore :=
  if hasClient then
    fun k => if k = abiKey contractAddress then some (abi, now + 86400) else st k
  else st

/-- `ABIFetcher.getCachedABI` (abiFetcher.js lines 142-153): null
without a Redis client; otherwise a lookup under the lower-cased key,
with Redis expiring the key once the TTL has elapsed. -/
def getCachedABI (hasClient : Bool) (st : AbiStore) (now : Nat)
    (contractAddress : String) : Option Abi :=
  if hasClient then
    match st (abiKey contractAddress) with
    | some (abi, expiry) => if now < expiry then some abi else none
    | none => none
  else none

/-! ### Helper lemmas on the standard-path classifier -/

/-- Total record count of a standard-path accumulator. -/
def totalRecs (st : ParsedLogsStd) : Nat :=
  st.transfers.length + st.deposits.length + st.otherEvents.length

theorem applyTopic_ne12 (gA : String → Option String) (i : Nat) (t : String)
    (st : ParsedLogsStd) (h1 : i ≠ 1) (h2 : i ≠ 2) :
    applyTopic gA i t st = st := by
  unfold applyTopic
  split
  · split
    · simp [h1, h2]
    · rfl
  · rfl

theorem topicLoop_preserve (gA : String → Option String) :
    ∀ (ts : List String) (i : Nat) (st : ParsedLogsStd),
      (topicLoop gA i ts st).transfers = st.transfers ∧
      (topicLoop gA i ts st).deposits = st.deposits ∧
      (topicLoop gA i ts st).otherEvents = st.otherEvents ∧
      (topicLoop gA i ts st).contractType = st.contractType := by
  intro ts
  induction ts with
  | nil => intro i st; simp [topicLoop]
  | cons t rest ih =>
    intro i st
    have h := ih (i + 1) (applyTopic gA i t st)
    have ha : (applyTopic gA i t st).transfers = st.transfers ∧
        (applyTopic gA i t st).deposits = st.deposits ∧
        (applyTopic gA i t st).otherEvents = st.otherEvents ∧
        (applyTopic gA i t st).contractType = st.contractType := by
      unfold applyTopic
      split
      · split
        · split
          · simp
          · split
            · simp
            · simp
        · simp
      · simp
    simp only [topicLoop]
    exact ⟨h.1.trans ha.1, h.2.1.trans ha.2.1, h.2.2.1.trans ha.2.2.1, h.2.2.2.trans ha.2.2.2⟩

theorem step_sum (e20 e721 : RawLog → DecodeResult) (gA : String → Option String)
    (st : ParsedLogsStd) (log : RawLog) :
    totalRecs (parseLogStep e20 e721 gA st log) = totalRecs st + 1 := by
  unfold parseLogStep
  split
  · simp [totalRecs]; omega
  · simp [totalRecs]; omega
  · unfold erc721Step
    split
    · simp [totalRecs]; omega
    · unfold parseLogFallback
      have h := topicLoop_preserve gA log.topics.tail 1 st
      simp [totalRecs, h.1, h.2.1, h.2.2.1]
      omega

/-- The schema the cascade of the source matches a log against, if any:
ERC-20 "Transfer"/"Deposit" first, then ERC-721 "Transfer" — the
decision structure of blockchain.js lines 124-195. -/
def stdMatchType (e20 e721 : RawLog → DecodeResult) (log : RawLog) : Option String :=
  match e20 log with
  | .ok "Transfer" (_ :: _ :: _ :: _) => some "ERC20"
  | .ok "Deposit" (_ :: _ :: _) => some "ERC20"
  | _ =>
    match e721 log with
    | .ok "Transfer" (_ :: _ :: _ :: _) => some "ERC721"
    | _ => none

theorem step_contractType (e20 e721 : RawLog → DecodeResult)
    (gA : String → Option String) (st : ParsedLogsStd) (log : RawLog) :
    (parseLogStep e20 e721 gA st log).contractType =
      (stdMatchType e20 e721 log).getD st.contractType := by
  unfold parseLogStep stdMatchType
  split
  · simp
  · simp
  · unfold erc721Step
    split
    · simp
    · unfold parseLogFallback
      have h := topicLoop_preserve gA log.topics.tail 1 st
      simp [h.2.2.2]

theorem step_noMatch (e20 e721 : RawLog → DecodeResult)
    (gA : String → Option String) (st : ParsedLogsStd) (log : RawLog)
    (h : stdMatchType e20 e721 log = none) :
    parseLogStep e20 e721 gA st log = parseLogFallback gA st log := by
  unfold stdMatchType at h
  unfold parseLogStep
  split
  · rename_i f t v r heq
    simp [heq] at h
  · rename_i f v r heq
    simp [heq] at h
  · rename_i hn1 hn2
    unfold erc721Step
    split
    · rename_i f t tok r heq
      split at h
      · rename_i f2 t2 v2 r2 heq2
        exact absurd heq2 (by intro hc; exact hn1 f2 t2 v2 r2 hc)
      · rename_i f2 v2 r2 heq2
        exact absurd heq2 (by intro hc; exact hn2 f2 v2 r2 hc)
      · simp [heq] at h
    · rfl

/-- The sender/receiver update performed for one heuristic topic:
gated on raw length 66, then on `ethers.getAddress` accepting the
last 20 bytes. -/
def updAddr (gA : String → Option String) (s : List String) (t : String) : List String :=
  if t.length = 66 then
    match gA ("0x" ++ strDrop t 26) with
    | some a => addToSet s a
    | none => s
  else s

/-- The same update, for a topic that may be out of range. -/
def updAddrOpt (gA : String → Option String) (s : List String) :
    Option String → List String
  | some t => updAddr gA s t
  | none => s

theorem applyTopic_one (gA : String → Option String) (t : String) (st : ParsedLogsStd) :
    applyTopic gA 1 t st = { st with senderAddresses := updAddr gA st.senderAddresses t } := by
  unfold applyTopic updAddr
  split
  · split
    · simp
    · rfl
  · rfl

theorem applyTopic_two (gA : String → Option String) (t : String) (st : ParsedLogsStd) :
    applyTopic gA 2 t st = { st with receiverAddresses := updAddr gA st.receiverAddresses t } := by
  unfold applyTopic updAddr
  split
  · split
    · simp
    · rfl
  · rfl

theorem topicLoop_ge3 (gA : String → Option String) :
    ∀ (ts : List String) (i : Nat) (st : ParsedLogsStd), 3 ≤ i →
      topicLoop gA i ts st = st := by
  intro ts
  induction ts with
  | nil => intro i st _; rfl
  | cons t rest ih =>
    intro i st hi
    have h1 : i ≠ 1 := by omega
    have h2 : i ≠ 2 := by omega
    simp only [topicLoop]
    rw [applyTopic_ne12 gA i t st h1 h2]
    exact ih (i + 1) st (by omega)

theorem fallback_sets (gA : String → Option String) (st : ParsedLogsStd) (log : RawLog) :
    (parseLogFallback gA st log).senderAddresses =
      updAddrOpt gA st.senderAddresses (log.topics.get? 1) ∧
    (parseLogFallback gA st log).receiverAddresses =
      updAddrOpt gA st.receiverAddresses (log.topics.get? 2) ∧
    (parseLogFallback gA st log).otherEvents = st.otherEvents ++ [rawEventOf log] ∧
    (parseLogFallback gA st log).transfers = st.transfers ∧
    (parseLogFallback gA st log).deposits = st.deposits := by
  unfold parseLogFallback
  match hts : log.topics with
  | [] => simp [hts, topicLoop, updAddrOpt]
  | [t0] => simp [hts, topicLoop, updAddrOpt]
  | t0 :: t1 :: rest =>
    match rest with
    | [] =>
      simp only [hts, List.drop_succ_cons, List.drop_zero, topicLoop,
        applyTopic_one, List.get?_cons_succ, List.get?_cons_zero, updAddrOpt]
      simp
    | t2 :: rest2 =>
      have e2 : (1 : Nat) + 1 = 2 := rfl
      have e3 : (2 : Nat) + 1 = 3 := rfl
      simp only [hts, List.drop_succ_cons, List.drop_zero, topicLoop, e2, e3,
        applyTopic_one, applyTopic_two]
      rw [topicLoop_ge3 gA rest2 3 _ (by omega)]
      simp [updAddrOpt]

theorem step_one_bucket (e20 e721 : RawLog → DecodeResult)
    (gA : String → Option String) (st : ParsedLogsStd) (log : RawLog) :
    (∃ r, (parseLogStep e20 e721 gA st log).transfers = st.transfers ++ [r] ∧
          (parseLogStep e20 e721 gA st log).deposits = st.deposits ∧
          (parseLogStep e20 e721 gA st log).otherEvents = st.otherEvents) ∨
    (∃ r, (parseLogStep e20 e721 gA st log).deposits = st.deposits ++ [r] ∧
          (parseLogStep e20 e721 gA st log).transfers = st.transfers ∧
          (parseLogStep e20 e721 gA st log).otherEvents = st.otherEvents) ∨
    (∃ r, (parseLogStep e20 e721 gA st log).otherEvents = st.otherEvents ++ [r] ∧
          (parseLogStep e20 e721 gA st log).transfers = st.transfers ∧
          (parseLogStep e20 e721 gA st log).deposits = st.deposits) := by
  unfold parseLogStep
  split
  · left; exact ⟨_, rfl, rfl, rfl⟩
  · right; left; exact ⟨_, rfl, rfl, rfl⟩
  · unfold erc721Step
    split
    · left; exact ⟨_, rfl, rfl, rfl⟩
    · right; right
      have h := fallback_sets gA st log
      exact ⟨rawEventOf log, h.2.2.1, h.2.2.2.1, h.2.2.2.2⟩

theorem parseLogs_total_aux (e20 e721 : RawLog → DecodeResult)
    (gA : String → Option String) :
    ∀ (logs : List RawLog) (st : ParsedLogsStd),
      totalRecs (logs.foldl (parseLogStep e20 e721 gA) st) =
        totalRecs st + logs.length := by
  intro logs
  induction logs with
  | nil => intro st; simp
  | cons log rest ih =>
    intro st
    simp only [List.foldl_cons, List.length_cons]
    rw [ih, step_sum]
    omega

/-! ### Helper lemmas on the custom-ABI classifier -/

/-- Total category record count of a custom-ABI accumulator (the
result has only these three category buckets). -/
def abiTotal (st : ParsedLogsAbi) : Nat :=
  st.transfers.length + st.failures.length + st.partialTransfers.length

theorem abiStep_one_bucket (d : RawLog → DecodeResult) (st : ParsedLogsAbi)
    (log : RawLog) :
    (∃ r, (abiStep d st log).transfers = st.transfers ++ [r] ∧
          (abiStep d st log).failures = st.failures ∧
          (abiStep d st log).partialTransfers = st.partialTransfers) ∨
    (∃ r, (abiStep d st log).failures = st.failures ++ [r] ∧
          (abiStep d st log).transfers = st.transfers ∧
          (abiStep d st log).partialTransfers = st.partialTransfers) ∨
    (∃ r, (abiStep d st log).partialTransfers = st.partialTransfers ++ [r] ∧
          (abiStep d st log).transfers = st.transfers ∧
          (abiStep d st log).failures = st.failures) ∨
    ((abiStep d st log).transfers = st.transfers ∧
     (abiStep d st log).failures = st.failures ∧
     (abiStep d st log).partialTransfers = st.partialTransfers) := by
  unfold abiStep
  split
  · split
    · split
      · right; left; exact ⟨_, rfl, rfl, rfl⟩
      · split
        · right; right; left; exact ⟨_, rfl, rfl, rfl⟩
        · left; exact ⟨_, rfl, rfl, rfl⟩
    · right; right; right; exact ⟨by simp, by simp, by simp⟩
  · right; right; right; exact ⟨rfl, rfl, rfl⟩
  · right; right; right; exact ⟨by simp, by simp, by simp⟩

theorem abiStep_le (d : RawLog → DecodeResult) (st : ParsedLogsAbi) (log : RawLog) :
    abiTotal (abiStep d st log) ≤ abiTotal st + 1 := by
  rcases abiStep_one_bucket d st log with ⟨r, h1, h2, h3⟩ | ⟨r, h1, h2, h3⟩ | ⟨r, h1, h2, h3⟩ | ⟨h1, h2, h3⟩ <;>
    simp [abiTotal, h1, h2, h3] <;> omega

theorem abiFold_le (d : RawLog → DecodeResult) :
    ∀ (logs : List RawLog) (st : ParsedLogsAbi),
      abiTotal (logs.foldl (abiStep d) st) ≤ abiTotal st + logs.length := by
  intro logs
  induction logs with
  | nil => intro st; simp
  | cons log rest ih =>
    intro st
    simp only [List.foldl_cons, List.length_cons]
    calc abiTotal (rest.foldl (abiStep d) (abiStep d st log))
        ≤ abiTotal (abiStep d st log) + rest.length := ih _
      _ ≤ abiTotal st + 1 + rest.length := by
          have := abiStep_le d st log; omega
      _ = abiTotal st + (rest.length + 1) := by omega

theorem getLastD_cons {α : Type} (l : List α) (b d : α) :
    ((b :: l).getLast?).getD d = (l.getLast?).getD b := by
  cases l with
  | nil => rfl
  | cons x xs =>
    rw [List.getLast?_cons_cons]
    have hs : ((x :: xs).getLast?).isSome := by
      rw [List.getLast?_isSome]
      simp
    obtain ⟨y, hy⟩ := Option.isSome_iff_exists.mp hs
    rw [hy]
    rfl

theorem parseLogs_ct_aux (e20 e721 : RawLog → DecodeResult)
    (gA : String → Option String) :
    ∀ (logs : List RawLog) (st : ParsedLogsStd),
      (logs.foldl (parseLogStep e20 e721 gA) st).contractType =
        ((logs.filterMap (stdMatchType e20 e721)).getLast?).getD st.contractType := by
  intro logs
  induction logs with
  | nil => intro st; simp
  | cons log rest ih =>
    intro st
    simp only [List.foldl_cons, List.filterMap_cons]
    cases h : stdMatchType e20 e721 log with
    | none =>
      rw [ih]
      have hc := step_contractType e20 e721 gA st log
      rw [h] at hc
      simp at hc
      rw [hc]
    | some b =>
      rw [ih, getLastD_cons]
      have hc := step_contractType e20 e721 gA st log
      rw [h] at hc
      simp at hc
      rw [hc]

/-! ### Concrete fixtures for witnesses and counterexamples -/

/-- A concrete log with no topics. -/
def logA : RawLog :=
  { address := "0xc0ffee", topics := [], data := "0x", logIndex := 0, blockNumber := 5 }

/-- A decode oracle decoding every log to an "Approval" event. -/
def decApproval : RawLog → DecodeResult :=
  fun _ => .ok "Approval" ["0xa", "0xb", "5"]

/-- A decode oracle returning the null result on every log. -/
def dNull : RawLog → DecodeResult := fun _ => .nullRes

/-- Claim C1 counterexample.  The standard-path half of the claim holds, but on the
custom-ABI path a decoded event whose name does not contain
"transfer" is recorded in no category bucket at all (only in the flat
`parsedEvents` list), and a null decode result is recorded nowhere,
so the category lengths cannot sum to the input length.  Claim C1, as
stated, is false at this concrete input: one log, zero category
records — the custom-ABI result carries only the three category
buckets shown (it has no `deposits` and no `otherEvents` field). -/
theorem claim1_counterexample :
    ((parseLogsWithABI (some decApproval) [logA]).transfers.length +
       (parseLogsWithABI (some decApproval) [logA]).failures.length +
       (parseLogsWithABI (some decApproval) [logA]).partialTransfers.length ≠
       [logA].length) ∧
    parseLogsWithABI (some dNull) [logA] = ParsedLogsAbi.init := by
  constructor
  · decide
  · rfl

/-- Claim C1 (amended).  Standard path: every log is placed in exactly
one of {transfers, deposits, otherEvents} — each step appends exactly
one record to exactly one bucket — and the sum of the three category
lengths equals the number of input logs.  Custom-ABI path: each log
contributes at most one record, to at most one of the
{transfers, failures, partialTransfers} buckets (the only category
buckets that exist on that path), so the sum of those lengths is at
most the number of input logs; logs decoding to events whose name
does not contain "transfer", or decoding to null, contribute to no
category bucket. -/
theorem claim1_total_coverage :
    (∀ (e20 e721 : RawLog → DecodeResult) (gA : String → Option String)
        (logs : List RawLog),
        (parseLogs e20 e721 gA logs).transfers.length +
          (parseLogs e20 e721 gA logs).deposits.length +
          (parseLogs e20 e721 gA logs).otherEvents.length = logs.length) ∧
    (∀ (e20 e721 : RawLog → DecodeResult) (gA : String → Option String)
        (st : ParsedLogsStd) (log : RawLog),
        (∃ r, (parseLogStep e20 e721 gA st log).transfers = st.transfers ++ [r] ∧
              (parseLogStep e20 e721 gA st log).deposits = st.deposits ∧
              (parseLogStep e20 e721 gA st log).otherEvents = st.otherEvents) ∨
        (∃ r, (parseLogStep e20 e721 gA st log).deposits = st.deposits ++ [r] ∧
              (parseLogStep e20 e721 gA st log).transfers = st.transfers ∧
              (parseLogStep e20 e721 gA st log).otherEvents = st.otherEvents) ∨
        (∃ r, (parseLogStep e20 e721 gA st log).otherEvents = st.otherEvents ++ [r] ∧
              (parseLogStep e20 e721 gA st log).transfers = st.transfers ∧
              (parseLogStep e20 e721 gA st log).deposits = st.deposits)) ∧
    (∀ (d : RawLog → DecodeResult) (logs : List RawLog),
        (parseLogsWithABI (some d) logs).transfers.length +
          (parseLogsWithABI (some d) logs).failures.length +
          (parseLogsWithABI (some d) logs).partialTransfers.length ≤ logs.length) ∧
    (∀ (d : RawLog → DecodeResult) (st : ParsedLogsAbi) (log : RawLog),
        (∃ r, (abiStep d st log).transfers = st.transfers ++ [r] ∧
              (abiStep d st log).failures = st.failures ∧
              (abiStep d st log).partialTransfers = st.partialTransfers) ∨
        (∃ r, (abiStep d st log).failures = st.failures ++ [r] ∧
              (abiStep d st log).transfers = st.transfers ∧
              (abiStep d st log).partialTransfers = st.partialTransfers) ∨
        (∃ r, (abiStep d st log).partialTransfers = st.partialTransfers ++ [r] ∧
              (abiStep d st log).transfers = st.transfers ∧
              (abiStep d st log).failures = st.failures) ∨
        ((abiStep d st log).transfers = st.transfers ∧
         (abiStep d st log).failures = st.failures ∧
         (abiStep d st log).partialTransfers = st.partialTransfers)) := by
  refine ⟨?_, ?_, ?_, ?_⟩
  · intro e20 e721 gA logs
    have h := parseLogs_total_aux e20 e721 gA logs ParsedLogsStd.init
    simpa [parseLogs, totalRecs, ParsedLogsStd.init] using h
  · intro e20 e721 gA st log
    exact step_one_bucket e20 e721 gA st log
  · intro d logs
    have h := abiFold_le d logs ParsedLogsAbi.init
    simpa [parseLogsWithABI, abiTotal, ParsedLogsAbi.init] using h
  · intro d st log
    exact abiStep_one_bucket d st log

/-- Claim C9.  The contractType of the standard-path result is
last-writer-wins over the log sequence: it equals the type assigned
by the last log matching any schema — "ERC20" for an ERC-20
Transfer/Deposit match, "ERC721" for an ERC-721 Transfer match — and
stays "Unknown" when no log matches. -/
theorem claim9_contract_type_last_writer :
    ∀ (e20 e721 : RawLog → DecodeResult) (gA : String → Option String)
      (logs : List RawLog),
      (parseLogs e20 e721 gA logs).contractType =
        ((logs.filterMap (stdMatchType e20 e721)).getLast?).getD "Unknown" := by
  intro e20 e721 gA logs
  have h := parseLogs_ct_aux e20 e721 gA logs ParsedLogsStd.init
  simpa [parseLogs, ParsedLogsStd.init] using h

/-- Claim C3.  The transaction pattern analyzer picks the summary type
by first-match priority — transfers, then deposits, then non-empty
non-"0x" calldata, then positive native value, else "unknown" — and
the success flag is exactly "receipt status code equals 1". -/
theorem claim3_pattern_priority :
    ∀ (tx : Tx) (rc : Receipt) (pl : ParsedLogsStd),
      ((analyzeTransactionPattern tx rc pl).success = true ↔ rc.status = some 1) ∧
      (pl.transfers.length > 0 →
        (analyzeTransactionPattern tx rc pl).type = "transfer") ∧
      (pl.transfers.length = 0 → pl.deposits.length > 0 →
        (analyzeTransactionPattern tx rc pl).type = "deposit") ∧
      (pl.transfers.length = 0 → pl.deposits.length = 0 →
        tx.data ≠ "" → tx.data ≠ "0x" →
        (analyzeTransactionPattern tx rc pl).type = "contract_call") ∧
      (pl.transfers.length = 0 → pl.deposits.length = 0 →
        (tx.data = "" ∨ tx.data = "0x") → tx.value > 0 →
        (analyzeTransactionPattern tx rc pl).type = "eth_transfer") ∧
      (pl.transfers.length = 0 → pl.deposits.length = 0 →
        (tx.data = "" ∨ tx.data = "0x") → tx.value = 0 →
        (analyzeTransactionPattern tx rc pl).type = "unknown") := by
  intro tx rc pl
  refine ⟨?_, ?_, ?_, ?_, ?_, ?_⟩
  · unfold analyzeTransactionPattern
    split
    · simp
    · split
      · simp
      · split
        · simp
        · split
          · simp
          · simp
  · intro h
    simp [analyzeTransactionPattern, h]
  · intro h0 h
    simp [analyzeTransactionPattern, h0, h]
  · intro h0 h1 h2 h3
    simp [analyzeTransactionPattern, h0, h1, h2, h3]
  · intro h0 h1 h2 h3
    rcases h2 with h2 | h2 <;>
      simp [analyzeTransactionPattern, h0, h1, h2, h3]
  · intro h0 h1 h2 h3
    rcases h2 with h2 | h2 <;>
      simp [analyzeTransactionPattern, h0, h1, h2, h3]

/-- A transaction with empty calldata and positive value, and a
successful receipt, for the C3 witness. -/
def txEth : Tx :=
  { toAddr := some "0xdest", fromAddr := "0xsrc", value := 3
  , data := "0x", gasPrice := 7, nonce := 1 }

/-- A successful empty receipt for the C3 witness. -/
def rcOk : Receipt :=
  { status := some 1, blockNumber := 9, gasUsed := 21000, logs := [] }

/-- Witness for claim C3 at a concrete input: empty classified set,
"0x" calldata, value 3 gives type "eth_transfer", and the success
flag holds for status 1. -/
theorem claim3_witness :
    (analyzeTransactionPattern txEth rcOk ParsedLogsStd.init).type = "eth_transfer" ∧
    (analyzeTransactionPattern txEth rcOk ParsedLogsStd.init).success = true :=
  ⟨(claim3_pattern_priority txEth rcOk ParsedLogsStd.init).2.2.2.2.1
      rfl rfl (Or.inr rfl) (by decide),
   (claim3_pattern_priority txEth rcOk ParsedLogsStd.init).1.mpr rfl⟩

/-- Claim C4.  On the custom-ABI path, a decoded event whose
lower-cased name contains "transfer" is classified by name-pattern
priority: "failed" → failure record, else "partial" →
partial-transfer record, else transfer record, each with the stated
positional argument fields; "failed" is tested first, so it wins over
"partial" when a name contains both. -/
theorem claim4_abi_name_classification :
    ∀ (d : RawLog → DecodeResult) (st : ParsedLogsAbi) (log : RawLog)
      (name : String) (args : List String),
      d log = .ok name args →
      containsSub (strToLower name) "transfer" = true →
      ((containsSub (strToLower name) "failed" = true →
          (abiStep d st log).failures = st.failures ++
            [{ type := name, fromAddr := args.get? 0, toAddr := args.get? 1
             , amount := args.get? 2, reason := args.get? 3
             , logIndex := log.logIndex }] ∧
          (abiStep d st log).transfers = st.transfers ∧
          (abiStep d st log).partialTransfers = st.partialTransfers) ∧
       (containsSub (strToLower name) "failed" = false →
        containsSub (strToLower name) "partial" = true →
          (abiStep d st log).partialTransfers = st.partialTransfers ++
            [{ type := name, fromAddr := args.get? 0, toAddr := args.get? 1
             , requested := args.get? 2, sent := args.get? 3
             , logIndex := log.logIndex }] ∧
          (abiStep d st log).transfers = st.transfers ∧
          (abiStep d st log).failures = st.failures) ∧
       (containsSub (strToLower name) "failed" = false →
        containsSub (strToLower name) "partial" = false →
          (abiStep d st log).transfers = st.transfers ++
            [{ type := name, fromAddr := args.get? 0, toAddr := args.get? 1
             , amount := args.get? 2, logIndex := log.logIndex }] ∧
          (abiStep d st log).failures = st.failures ∧
          (abiStep d st log).partialTransfers = st.partialTransfers)) := by
  intro d st log name args h ht
  refine ⟨?_, ?_, ?_⟩
  · intro hf
    unfold abiStep
    rw [h]
    simp [ht, hf]
  · intro hf hp
    unfold abiStep
    rw [h]
    simp [ht, hf, hp]
  · intro hf hp
    unfold abiStep
    rw [h]
    simp [ht, hf, hp]

/-- A decode oracle decoding every log to a "PartialTransferFailed"
event, whose name contains both "failed" and "partial". -/
def decPTF : RawLog → DecodeResult :=
  fun _ => .ok "PartialTransferFailed" ["0xa", "0xb", "5", "reverted"]

/-- Witness for claim C4: the log decoding to "PartialTransferFailed"
— whose lower-cased name contains "transfer", "failed" and "partial"
— lands in the failures bucket (failure-pattern priority), not in
partialTransfers or transfers. -/
theorem claim4_witness :
    (abiStep decPTF ParsedLogsAbi.init logA).failures =
      ParsedLogsAbi.init.failures ++
        [{ type := "PartialTransferFailed", fromAddr := some "0xa"
         , toAddr := some "0xb", amount := some "5"
         , reason := some "reverted", logIndex := 0 }] ∧
    (abiStep decPTF ParsedLogsAbi.init logA).transfers = ParsedLogsAbi.init.transfers ∧
    (abiStep decPTF ParsedLogsAbi.init logA).partialTransfers =
      ParsedLogsAbi.init.partialTransfers :=
  (claim4_abi_name_classification decPTF ParsedLogsAbi.init logA
      "PartialTransferFailed" ["0xa", "0xb", "5", "reverted"] rfl (by decide)).1
    (by decide)

/-- The ERC-20 interface match of the source cascade alone
(blockchain.js lines 124-162): the record type it would push, if
any. -/
def stdMatch20 (e20 : RawLog → DecodeResult) (log : RawLog) : Option String :=
  match e20 log with
  | .ok "Transfer" (_ :: _ :: _ :: _) => some "ERC20 Transfer"
  | .ok "Deposit" (_ :: _ :: _) => some "Deposit"
  | _ => none

/-- Claim C5.  On the standard-token fallback path the ERC-20-like
schema is tried first: a log it matches is recorded from that match
and the result is independent of the ERC-721 oracle; the ERC-721-like
schema is attempted exactly when the ERC-20 attempt produced no
match; and every log yields exactly one record in total (no log is
decoded into more than one record). -/
theorem claim5_schema_priority :
    ∀ (e20 e721 e721x : RawLog → DecodeResult) (gA : String → Option String)
      (st : ParsedLogsStd) (log : RawLog),
      (∀ f t v r, e20 log = .ok "Transfer" (f :: t :: v :: r) →
          parseLogStep e20 e721 gA st log = parseLogStep e20 e721x gA st log ∧
          (parseLogStep e20 e721 gA st log).transfers = st.transfers ++
            [{ type := "ERC20 Transfer", fromAddr := f, toAddr := t
             , value := some v, tokenId := none
             , logIndex := log.logIndex, blockNumber := log.blockNumber }]) ∧
      (∀ f v r, e20 log = .ok "Deposit" (f :: v :: r) →
          parseLogStep e20 e721 gA st log = parseLogStep e20 e721x gA st log ∧
          (parseLogStep e20 e721 gA st log).deposits = st.deposits ++
            [{ type := "Deposit", fromAddr := f, value := v
             , logIndex := log.logIndex, blockNumber := log.blockNumber }]) ∧
      (stdMatch20 e20 log = none →
          parseLogStep e20 e721 gA st log = erc721Step e721 gA st log) ∧
      totalRecs (parseLogStep e20 e721 gA st log) = totalRecs st + 1 := by
  intro e20 e721 e721x gA st log
  refine ⟨?_, ?_, ?_, step_sum e20 e721 gA st log⟩
  · intro f t v r h
    constructor <;> simp [parseLogStep, h]
  · intro f v r h
    constructor <;> simp [parseLogStep, h]
  · intro h
    unfold stdMatch20 at h
    unfold parseLogStep
    split
    · rename_i f t v r heq
      simp [heq] at h
    · rename_i f v r heq
      simp [heq] at h
    · rfl

/-- A decode oracle decoding every log to an ERC-20-style Transfer. -/
def dec20T : RawLog → DecodeResult :=
  fun _ => .ok "Transfer" ["0xa", "0xb", "7"]

/-- A decode oracle decoding every log to a 3-argument Transfer with
different contents, standing in for the ERC-721 interface. -/
def dec721T : RawLog → DecodeResult :=
  fun _ => .ok "Transfer" ["0xx", "0xy", "9"]

/-- Witness for claim C5: with an ERC-20 match present, swapping the
ERC-721 oracle (a matching one against the null one) does not change
the step result, and the pushed record is the ERC-20 one. -/
theorem claim5_witness :
    parseLogStep dec20T dec721T (fun _ => none) ParsedLogsStd.init logA =
      parseLogStep dec20T dNull (fun _ => none) ParsedLogsStd.init logA ∧
    (parseLogStep dec20T dec721T (fun _ => none) ParsedLogsStd.init logA).transfers =
      ParsedLogsStd.init.transfers ++
        [{ type := "ERC20 Transfer", fromAddr := "0xa", toAddr := "0xb"
         , value := some "7", tokenId := none, logIndex := 0, blockNumber := 5 }] :=
  (claim5_schema_priority dec20T dec721T dNull (fun _ => none)
      ParsedLogsStd.init logA).1 "0xa" "0xb" "7" [] rfl

/-- Claim C7.  For a log no schema matches, the fallback heuristic
adds an address derived from topics[1] to the sender set and from
topics[2] to the receiver set, each only when the raw topic is
exactly 66 characters ("0x" plus 64 hex digits, the width of a
32-byte padded address) and `ethers.getAddress` accepts its last 40
digits; malformed topics are silently skipped, and the two sets
depend on nothing but topics[1] resp. topics[2] — topics at index 3
or higher never contribute. -/
theorem claim7_topic_heuristic :
    ∀ (e20 e721 : RawLog → DecodeResult) (gA : String → Option String)
      (st : ParsedLogsStd) (log : RawLog),
      stdMatchType e20 e721 log = none →
      (parseLogStep e20 e721 gA st log).senderAddresses =
        updAddrOpt gA st.senderAddresses (log.topics.get? 1) ∧
      (parseLogStep e20 e721 gA st log).receiverAddresses =
        updAddrOpt gA st.receiverAddresses (log.topics.get? 2) := by
  intro e20 e721 gA st log h
  rw [step_noMatch e20 e721 gA st log h]
  exact ⟨(fallback_sets gA st log).1, (fallback_sets gA st log).2.1⟩

/-- A 66-character topic: 24 zero digits of padding and 40 digits of
address, after the "0x" prefix. -/
def topicW : String :=
  "0x000000000000000000000000aaaaaaaaaaaaaaaaaaaaaaaaaaaaaaaaaaaaaaaa"

/-- A second 66-character topic. -/
def topicV : String :=
  "0x000000000000000000000000bbbbbbbbbbbbbbbbbbbbbbbbbbbbbbbbbbbbbbbb"

/-- An unmatched log with a well-formed topics[1], a malformed (short)
topics[2], and a well-formed topics[3]. -/
def logT : RawLog :=
  { address := "0xc0ffee", topics := ["0xsig", topicW, "0xdead", topicV]
  , data := "0x", logIndex := 2, blockNumber := 5 }

/-- Witness for claim C7 at a concrete unmatched log: the well-formed
topics[1] contributes its address to the sender set, the malformed
topics[2] is skipped, and the well-formed topics[3] contributes
nothing. -/
theorem claim7_witness :
    (parseLogStep dNull dNull some ParsedLogsStd.init logT).senderAddresses =
      ["0x" ++ strDrop topicW 26] ∧
    (parseLogStep dNull dNull some ParsedLogsStd.init logT).receiverAddresses = [] := by
  have h := claim7_topic_heuristic dNull dNull some ParsedLogsStd.init logT (by decide)
  exact ⟨h.1.trans (by decide), h.2.trans (by decide)⟩

/-- Claim C6.  ABI resolution is cache-first: a cache hit is returned
immediately with no external source queried and no cache write; on a
miss MonadScan is queried first and MonadExplorer only if MonadScan
yielded nothing; the first non-absent result is cached with a
24-hour (86400 s) TTL before being returned; a network error or the
"Contract source code not verified" reply from a source is treated as
absent from that source.  `fetchABI` is a total function of the
environment — no source failure propagates — and when every source
fails it degrades to no ABI. -/
theorem claim6_abi_resolution :
    ∀ (env : AbiEnv),
      (∀ a, env.cached = some a → fetchABI env = (some a, [], none)) ∧
      (∀ a, env.cached = none → fetchFromMonadScan env = some a →
          fetchABI env = (some a, ["monadscan"], some (a, 86400))) ∧
      (∀ a, env.cached = none → fetchFromMonadScan env = none →
          fetchFromMonadExplorer env = some a →
          fetchABI env = (some a, ["monadscan", "monadexplorer"], some (a, 86400))) ∧
      (env.cached = none → fetchFromMonadScan env = none →
          fetchFromMonadExplorer env = none →
          fetchABI env = (none, ["monadscan", "monadexplorer"], none)) ∧
      (env.scan = .netErr → fetchFromMonadScan env = none) ∧
      (∀ s, env.scan = .resp s "Contract source code not verified" →
          fetchFromMonadScan env = none) ∧
      (env.explorer = .error () → fetchFromMonadExplorer env = none) := by
  intro env
  refine ⟨?_, ?_, ?_, ?_, ?_, ?_, ?_⟩
  · intro a h
    unfold fetchABI
    rw [h]
  · intro a h hs
    unfold fetchABI
    rw [h, hs]
  · intro a h hs he
    unfold fetchABI
    rw [h, hs, he]
  · intro h hs he
    unfold fetchABI
    rw [h, hs, he]
  · intro h
    unfold fetchFromMonadScan
    rw [h]
  · intro s h
    unfold fetchFromMonadScan
    rw [h]
    simp
  · intro h
    unfold fetchFromMonadExplorer
    rw [h]

/-- An environment whose cache holds an ABI while both external
sources would fail. -/
def envCached : AbiEnv :=
  { cached := some "[]", scan := .netErr
  , scanParse := fun _ => none, explorer := .error () }

/-- Witness for claim C6: on the cached environment the resolver
returns the cached ABI with no source call and no cache write, and
both failing sources individually report absent. -/
theorem claim6_witness :
    fetchABI envCached = (some "[]", [], none) ∧
    fetchFromMonadScan envCached = none ∧
    fetchFromMonadExplorer envCached = none :=
  ⟨(claim6_abi_resolution envCached).1 "[]" rfl,
   (claim6_abi_resolution envCached).2.2.2.2.1 rfl,
   (claim6_abi_resolution envCached).2.2.2.2.2.2 rfl⟩

/-- Claim C8.  ABI cache round-trip: storing an ABI for an address
and reading it back through any casing of the address — the key is
lower-cased on both store and lookup — returns the stored ABI at any
time before the 24-hour TTL has elapsed (in particular immediately),
and absent once the TTL has expired. -/
theorem claim8_cache_roundtrip :
    ∀ (st : AbiStore) (now now2 : Nat) (a1 a2 : String) (abi : Abi),
      strToLower a1 = strToLower a2 →
      (now2 < now + 86400 →
        getCachedABI true (cacheABI true st now a1 abi) now2 a2 = some abi) ∧
      (now + 86400 ≤ now2 →
        getCachedABI true (cacheABI true st now a1 abi) now2 a2 = none) := by
  intro st now now2 a1 a2 abi h
  have hk : abiKey a2 = abiKey a1 := by
    unfold abiKey
    rw [h]
  constructor
  · intro hlt
    unfold getCachedABI cacheABI
    simp [hk, hlt]
  · intro hge
    unfold getCachedABI cacheABI
    simp [hk]
    omega

/-- An empty cache store. -/
def emptyStore : AbiStore := fun _ => none

/-- Witness for claim C8: storing under "0xAbCd" at time 0 and reading
under "0xaBcD" yields the ABI immediately and absent at the TTL
boundary 86400. -/
theorem claim8_witness :
    getCachedABI true (cacheABI true emptyStore 0 "0xAbCd" "[]") 0 "0xaBcD" = some "[]" ∧
    getCachedABI true (cacheABI true emptyStore 0 "0xAbCd" "[]") 86400 "0xaBcD" = none :=
  ⟨(claim8_cache_roundtrip emptyStore 0 0 "0xAbCd" "0xaBcD" "[]" (by decide)).1 (by omega),
   (claim8_cache_roundtrip emptyStore 0 86400 "0xAbCd" "0xaBcD" "[]" (by decide)).2 (by omega)⟩

/-- Every failing outcome of analyzeDispute carries the one fixed
message. -/
theorem analyzeDispute_error_msg :
    ∀ (k : Option String) (r : Except Unit (Option (List String))) (m : String),
      analyzeDispute k r = .error m → m = "AI service temporarily unavailable" := by
  intro k r m h
  unfold analyzeDispute at h
  cases k with
  | none =>
    injection h with h2
    exact h2.symm
  | some key =>
    cases r with
    | error e =>
      injection h with h2
      exact h2.symm
    | ok data =>
      cases data with
      | none =>
        injection h with h2
        exact h2.symm
      | some l =>
        cases l with
        | nil =>
          injection h with h2
          exact h2.symm
        | cons c cs => exact absurd h (by simp)

/-- When the transaction, receipt and block all resolve, the
outcome of the controller is determined by the dispute branch alone. -/
theorem controller_resolved (env : Env) (req : Request) (hsh : String)
    (t : Tx) (res : SvcResult)
    (hh : req.txHash = some hsh) (htx : env.tx = .ok (some t))
    (hres : svcAnalyzeTransaction env hsh = .ok res) :
    analyzeTransactionController env req =
      match req.disputeDescription with
      | none =>
        { status := 200, success := true, error := none, payload := some (res, none) }
      | some _ =>
        match analyzeDispute env.aiKey env.aiResp with
        | .error m => mapControllerError m
        | .ok ai =>
          { status := 200, success := true, error := none, payload := some (res, some ai) } := by
  unfold analyzeTransactionController
  simp only [hh]
  cases hca : req.contractAddress with
  | none => simp only [htx, hres]
  | some ca => simp only [hres]

/-- Resolved transaction, receipt and block give a successful service
analysis. -/
theorem svc_resolved (env : Env) (hsh : String) (t : Tx) (rc : Receipt)
    (b : Option Block) (htx : env.tx = .ok (some t))
    (hrc : env.receipt = .ok (some rc)) (hb : env.block = .ok b) :
    ∃ res, svcAnalyzeTransaction env hsh = .ok res := by
  unfold svcAnalyzeTransaction
  rw [htx, hrc, hb]
  exact ⟨_, rfl⟩

/-- Claim C10.  Every failure mode of the AI dispute adjudication —
missing API key, network failure, response without data, choices, or
a first choice — produces the same single error outcome carrying the
fixed message "AI service temporarily unavailable" (the caller cannot
distinguish missing configuration from an upstream outage), and when
such a failure is the only failure in an analyze request with a
dispute description, the controller maps it to a 503 non-success
response carrying that message. -/
theorem claim10_ai_error_opacity :
    (∀ resp, analyzeDispute none resp = .error "AI service temporarily unavailable") ∧
    (∀ k, analyzeDispute (some k) (.error ()) = .error "AI service temporarily unavailable") ∧
    (∀ k, analyzeDispute (some k) (.ok none) = .error "AI service temporarily unavailable") ∧
    (∀ k, analyzeDispute (some k) (.ok (some [])) = .error "AI service temporarily unavailable") ∧
    (∀ k r m, analyzeDispute k r = .error m → m = "AI service temporarily unavailable") ∧
    (∀ (env : Env) (req : Request) (hsh : String) (t : Tx) (rc : Receipt)
        (b : Option Block),
        req.txHash = some hsh → req.disputeDescription.isSome = true →
        env.tx = .ok (some t) → env.receipt = .ok (some rc) → env.block = .ok b →
        (analyzeDispute env.aiKey env.aiResp).isOk = false →
        analyzeTransactionController env req =
          { status := 503, success := false
          , error := some "AI service temporarily unavailable", payload := none }) := by
  refine ⟨fun resp => rfl, fun k => rfl, fun k => rfl, fun k => rfl,
    analyzeDispute_error_msg, ?_⟩
  intro env req hsh t rc b hh hd htx hrc hb hai
  obtain ⟨res, hres⟩ := svc_resolved env hsh t rc b htx hrc hb
  rw [controller_resolved env req hsh t res hh htx hres]
  cases hdd : req.disputeDescription with
  | none => rw [hdd] at hd; exact absurd hd (by simp)
  | some dsc =>
    cases haD : analyzeDispute env.aiKey env.aiResp with
    | ok c => rw [haD] at hai; exact absurd hai (by simp [Except.isOk, Except.toBool])
    | error m =>
      have hm := analyzeDispute_error_msg env.aiKey env.aiResp m haD
      subst hm
      change mapControllerError "AI service temporarily unavailable" = _
      decide

/-- A contract-state environment in which every read-only contract
call fails. -/
def stEnvFail : StateEnv :=
  { contractOk := true, balanceOf := .error (), symbol := .error ()
  , tokenName := .error (), decimals := .error () }

/-- A resolved block. -/
def blkOk : Block := { timestamp := 1234 }

/-- An environment whose transaction, receipt and block all resolve
but whose AI key is unconfigured and whose contract-state reads all
fail. -/
def envAI : Env :=
  { tx := .ok (some txEth), receipt := .ok (some rcOk), block := .ok (some blkOk)
  , state := stEnvFail, e20 := dNull, e721 := dNull, getAddr := fun _ => none
  , aiKey := none, aiResp := .error () }

/-- An analyze request carrying a dispute description. -/
def reqD : Request :=
  { txHash := some "0xhash", contractAddress := some "0xc0ffee"
  , disputeDescription := some "tokens missing" }

/-- Witness for claim C10: with the AI key unconfigured, a dispute
request whose chain lookups all succeed gets exactly the 503
response with the fixed message. -/
theorem claim10_witness :
    analyzeTransactionController envAI reqD =
      { status := 503, success := false
      , error := some "AI service temporarily unavailable", payload := none } :=
  claim10_ai_error_opacity.2.2.2.2.2 envAI reqD "0xhash" txEth rcOk (some blkOk)
    rfl rfl rfl rfl rfl rfl

/-- An environment whose transaction and receipt resolve but whose
block fetch raises a network error. -/
def envBlockErr : Env :=
  { tx := .ok (some txEth), receipt := .ok (some rcOk)
  , block := .error "ECONNRESET", state := stEnvFail
  , e20 := dNull, e721 := dNull, getAddr := fun _ => none
  , aiKey := none, aiResp := .error () }

/-- An analyze request without a dispute description. -/
def reqPlain : Request :=
  { txHash := some "0xhash", contractAddress := some "0xc0ffee"
  , disputeDescription := none }

/-- Claim C2 counterexample.  Claim C2, as stated, is false at this concrete input: the
transaction and the receipt both resolve, no dispute description is
supplied (so no AI adjudication is involved), yet the request gets a
non-success 500 response — because the block fetch raised a network
error, which analyzeTransaction does not catch. -/
theorem claim2_counterexample :
    envBlockErr.tx = .ok (some txEth) ∧
    envBlockErr.receipt = .ok (some rcOk) ∧
    reqPlain.disputeDescription = none ∧
    (analyzeTransactionController envBlockErr reqPlain).success = false ∧
    (analyzeTransactionController envBlockErr reqPlain).status = 500 := by
  refine ⟨rfl, rfl, rfl, ?_, ?_⟩ <;> decide

/-- Claim C2 (amended).  For every analyze request whose transaction,
receipt and block fetch all resolve without a network error, the
request succeeds (HTTP 200) regardless of any contract-state lookup
failure — internal lookups only degrade fields — unless a dispute
description is present and the AI adjudication fails, which yields
exactly the 503 response; a transaction that resolves to absent
yields the 404 not-found response; an absent receipt yields a
non-success response (a 500, since the substring test of the controller
does not recognize the receipt message as a not-found).  Provider
network errors on the transaction, receipt or block fetch are a
further source of non-success responses. -/
theorem claim2_graceful_degradation :
    (∀ (env : Env) (req : Request) (hsh : String) (t : Tx) (rc : Receipt)
        (b : Option Block),
        req.txHash = some hsh →
        env.tx = .ok (some t) → env.receipt = .ok (some rc) → env.block = .ok b →
        ((analyzeTransactionController env req).success = false →
          req.disputeDescription.isSome = true ∧
          (analyzeDispute env.aiKey env.aiResp).isOk = false ∧
          analyzeTransactionController env req =
            { status := 503, success := false
            , error := some "AI service temporarily unavailable", payload := none }) ∧
        ((req.disputeDescription = none ∨
            (analyzeDispute env.aiKey env.aiResp).isOk = true) →
          (analyzeTransactionController env req).success = true ∧
          (analyzeTransactionController env req).status = 200)) ∧
    (∀ (env : Env) (req : Request) (hsh : String),
        req.txHash = some hsh → env.tx = .ok none →
        analyzeTransactionController env req =
          { status := 404, success := false
          , error := some "Transaction not found", payload := none }) ∧
    (∀ (env : Env) (req : Request) (hsh : String) (t : Tx),
        req.txHash = some hsh → env.tx = .ok (some t) → env.receipt = .ok none →
        analyzeTransactionController env req =
          { status := 500, success := false
          , error := some "Internal server error", payload := none }) := by
  refine ⟨?_, ?_, ?_⟩
  · intro env req hsh t rc b hh htx hrc hb
    obtain ⟨res, hres⟩ := svc_resolved env hsh t rc b htx hrc hb
    have hctrl := controller_resolved env req hsh t res hh htx hres
    constructor
    · intro hfail
      cases hdd : req.disputeDescription with
      | none =>
        rw [hdd] at hctrl
        rw [hctrl] at hfail
        exact absurd hfail (by simp)
      | some dsc =>
        rw [hdd] at hctrl
        cases haD : analyzeDispute env.aiKey env.aiResp with
        | ok c =>
          rw [haD] at hctrl
          rw [hctrl] at hfail
          exact absurd hfail (by simp)
        | error m =>
          have hm := analyzeDispute_error_msg env.aiKey env.aiResp m haD
          subst hm
          rw [haD] at hctrl
          refine ⟨by simp [hdd], by simp [haD, Except.isOk, Except.toBool], ?_⟩
          rw [hctrl]
          change mapControllerError "AI service temporarily unavailable" = _
          decide
    · intro hok
      cases hdd : req.disputeDescription with
      | none =>
        rw [hdd] at hctrl
        rw [hctrl]
        exact ⟨rfl, rfl⟩
      | some dsc =>
        rw [hdd] at hctrl
        rcases hok with hok | hok
        · rw [hdd] at hok
          exact absurd hok (by simp)
        · cases haD : analyzeDispute env.aiKey env.aiResp with
          | error m =>
            rw [haD] at hok
            exact absurd hok (by simp [Except.isOk, Except.toBool])
          | ok c =>
            rw [haD] at hctrl
            rw [hctrl]
            exact ⟨rfl, rfl⟩
  · intro env req hsh hh htx
    unfold analyzeTransactionController
    simp only [hh]
    cases hca : req.contractAddress with
    | none => simp only [htx]
    | some ca =>
      have hsvc : svcAnalyzeTransaction env hsh = .error "Transaction not found" := by
        unfold svcAnalyzeTransaction
        rw [htx]
      simp only [hsvc]
      decide
  · intro env req hsh t hh htx hrc
    unfold analyzeTransactionController
    simp only [hh]
    have hsvc : svcAnalyzeTransaction env hsh = .error "Transaction receipt not found" := by
      unfold svcAnalyzeTransaction
      rw [htx, hrc]
    cases hca : req.contractAddress with
    | none =>
      simp only [htx, hsvc]
      decide
    | some ca =>
      simp only [hsvc]
      decide

/-- An environment in which every chain lookup succeeds while every
contract-state read fails. -/
def envGood : Env :=
  { tx := .ok (some txEth), receipt := .ok (some rcOk), block := .ok (some blkOk)
  , state := stEnvFail, e20 := dNull, e721 := dNull, getAddr := fun _ => none
  , aiKey := none, aiResp := .error () }

/-- Witness for claim C2 (amended): a dispute-free request against the
all-resolved environment with every contract-state lookup failing
still gets a success 200 response. -/
theorem claim2_witness :
    (analyzeTransactionController envGood reqPlain).success = true ∧
    (analyzeTransactionController envGood reqPlain).status = 200 :=
  (claim2_graceful_degradation.1 envGood reqPlain "0xhash" txEth rcOk (some blkOk)
      rfl rfl rfl rfl).2 (Or.inl rfl)
